import Mathlib

/-!
Verification development for the training driver `experiments/train_TUs.py`
of the Structure-Aware Transformer repository.

The file shallowly embeds the orchestration logic of that script:
the evaluation loop `eval_epoch`, the training loop `train_epoch` with its
linear warmup learning-rate ramp, the per-run controller `main` (epoch loop,
best-checkpoint bookkeeping, terminal restore and persistence), the
output-directory derivation of `load_args`, and the ten-run aggregator of
the `__main__` block.

Modelling conventions:
  - Python floats are idealised as rationals; wall-clock times and GPU
    memory sampling are omitted (real-time measurements).
  - The neural network, the loss criterion and the optimizer numerics are
    external library capabilities; they enter the embedding as opaque
    function parameters (a model maps a batch to a matrix of logits, the
    per-batch training loss is an opaque function of the batch index).
  - Tensors of logits are lists of rows of rationals; a batch carries an
    abstract payload (node features, edge index, ...) plus its label vector.
  - `torch.cat` raises a RuntimeError when applied to an empty list of
    tensors; it is embedded as an `Except`-valued function.
  - Python `float` formatting inside the output path is rendered with
    `toString`; the exact numeral rendering does not matter for the
    properties proved here (determinism and structure of the path).
-/

universe u

variable {α : Type u} {W : Type}

/-- torch.cat over a list of integer tensors: concatenation, except that
PyTorch raises a RuntimeError when the list of tensors to concatenate is
empty (the message below is PyTorch's, with punctuation simplified). -/
def torchCat (ts : List (List ℕ)) : Except String (List ℕ) :=
  match ts with
  | [] => Except.error "torch.cat expected a non-empty list of Tensors"
  | _ => Except.ok ts.flatten

/-- Auxiliary scan for `argmaxIdx`: keeps the index and value of the best
entry seen so far, replacing it only on a strictly larger value. -/
def argmaxAux (best : ℕ) (bestVal : ℚ) (i : ℕ) : List ℚ → ℕ
  | [] => best
  | v :: vs => if v > bestVal then argmaxAux i v (i + 1) vs else argmaxAux best bestVal (i + 1) vs

/-- Index of the first maximal entry of a row of logits, as computed by
`tensor.max(dim)[1]` (PyTorch returns the index of the first maximal value). -/
def argmaxIdx : List ℚ → ℕ
  | [] => 0
  | v :: vs => argmaxAux 0 v 1 vs

/-- One batch seen by `eval_epoch`: an abstract payload `x` (node features,
edge index, positional encodings, ...) and the label vector `batch.y`. -/
structure EvalBatch (α : Type u) where
  x : α
  y : List ℕ

/-- The mutable locals of `eval_epoch` threaded through its loop:
`running_loss`, the lists `y_pred` and `y_true`, the counter `correct`,
plus an observation counting the unconditional `batch.cuda()` transfers. -/
structure EvalState where
  running_loss : ℚ
  y_pred : List (List ℕ)
  y_true : List (List ℕ)
  correct : ℕ
  cudaCalls : ℕ

/-- The body of the loop of `eval_epoch`: the batch is moved to CUDA
unconditionally, the model's row-wise argmax is compared with `batch.y`,
and only `correct` is accumulated — `running_loss`, `y_pred` and `y_true`
are never touched, exactly as in the source. -/
def evalStep (model : EvalBatch α → List (List ℚ)) (st : EvalState) (batch : EvalBatch α) :
    EvalState :=
  let pred := model batch
  let predIdx := pred.map argmaxIdx
  let c := (predIdx.zip batch.y).countP (fun p => p.1 == p.2)
  { st with correct := st.correct + c, cudaCalls := st.cudaCalls + 1 }

/-- The loop of `eval_epoch` over the loader, starting from the source's
initial values `running_loss = 0.0`, `y_pred = []`, `y_true = []`,
`correct = 0`. -/
def evalLoop (model : EvalBatch α → List (List ℚ)) (loader : List (EvalBatch α)) : EvalState :=
  loader.foldl (evalStep model) { running_loss := 0, y_pred := [], y_true := [], correct := 0, cudaCalls := 0 }

/-- `len(loader.dataset)`: the data loader partitions the dataset into
batches, so the dataset size is the total number of labels. -/
def evalDatasetSize (loader : List (EvalBatch α)) : ℕ :=
  (loader.map (fun b => b.y.length)).sum

/-- `eval_epoch` from the source: runs the inference loop, then calls
`torch.cat` on `y_pred` and `y_true` (never appended to inside the loop),
then would return `(score, epoch_loss)` with `score = correct / n` and
`epoch_loss = running_loss / n`. The `use_cuda` parameter exists in the
signature but is never read by the body, as in the source. -/
def eval_epoch (model : EvalBatch α → List (List ℚ)) (loader : List (EvalBatch α))
    (use_cuda : Bool) : Except String (ℚ × ℚ) :=
  let st := evalLoop model loader
  match torchCat st.y_pred with
  | Except.error e => Except.error e
  | Except.ok _ =>
    match torchCat st.y_true with
    | Except.error e => Except.error e
    | Except.ok _ =>
      let n : ℚ := (evalDatasetSize loader : ℚ)
      Except.ok (((st.correct : ℚ) / n), st.running_loss / n)

/-- One batch seen by `train_epoch`: an abstract payload and the size
`len(data.y)` used to weight the running loss. -/
structure TrainBatch (α : Type u) where
  x : α
  ySize : ℕ

/-- `lr_steps = args.lr / (args.warmup * len(train_loader))` from `main`. -/
def lr_steps (lr : ℚ) (warmup nbatches : ℕ) : ℚ :=
  lr / ((warmup : ℚ) * (nbatches : ℚ))

/-- `warmup_lr_scheduler(s) = s * lr_steps`, the closed-form linear ramp
defined inside `main` and passed to `train_epoch`. -/
def warmup_lr_scheduler (lr : ℚ) (warmup nbatches : ℕ) (s : ℕ) : ℚ :=
  (s : ℚ) * lr_steps lr warmup nbatches

/-- The mutable state of `train_epoch`'s loop: the optimizer's learning
rate (`param_group["lr"]`), the running loss, an observation trace of the
learning rate in effect at each `optimizer.step()`, and a count of the
conditional `data.cuda()` transfers. -/
structure TrainState where
  lr : ℚ
  running_loss : ℚ
  lrTrace : List ℚ
  cudaCalls : ℕ

/-- The body of `train_epoch`'s loop at enumerate index `p.1` with batch
`p.2`: if `epoch < warmup` the optimizer's lr is overwritten with
`lr_scheduler(epoch * len(loader) + i)`; the batch is moved to CUDA only
when `use_cuda`; the (opaque) batch loss times the batch size is added to
the running loss. `lossOf i` abstracts
`criterion(model(data), data.y.squeeze()).item()` for the `i`-th batch,
including the effect of the stochastic Laplacian sign flip. -/
def trainStep (baseLr : ℚ) (warmup nb epoch : ℕ) (use_cuda : Bool) (lossOf : ℕ → ℚ)
    (st : TrainState) (p : ℕ × TrainBatch α) : TrainState :=
  let st1 := if epoch < warmup then
      { st with lr := warmup_lr_scheduler baseLr warmup nb (epoch * nb + p.1) } else st
  let st2 := if use_cuda then { st1 with cudaCalls := st1.cudaCalls + 1 } else st1
  { st2 with lrTrace := st2.lrTrace ++ [st2.lr],
             running_loss := st2.running_loss + lossOf p.1 * (p.2.ySize : ℚ) }

/-- `len(loader.dataset)` for the training loader: total number of labels. -/
def trainDatasetSize (batches : List (TrainBatch α)) : ℕ :=
  (batches.map (fun b => b.ySize)).sum

/-- `train_epoch` from the source: folds `trainStep` over the enumerated
batches starting from the optimizer's current lr `lr0` and
`running_loss = 0.0`, and returns the final loop state together with
`epoch_loss = running_loss / n_sample`. -/
def train_epoch (baseLr : ℚ) (warmup : ℕ) (lossOf : ℕ → ℚ) (batches : List (TrainBatch α))
    (epoch : ℕ) (use_cuda : Bool) (lr0 : ℚ) : TrainState × ℚ :=
  let fin := batches.enum.foldl (trainStep baseLr warmup batches.length epoch use_cuda lossOf)
    { lr := lr0, running_loss := 0, lrTrace := [], cudaCalls := 0 }
  (fin, fin.running_loss / (trainDatasetSize batches : ℚ))

/-- The scalar results one epoch of `main`'s loop obtains from its
collaborators: `train_loss` from `train_epoch`, `(val_score, val_loss)` and
`(test_score, test_loss)` from `eval_epoch`, and the model's parameter
state `model.state_dict()` at the end of the epoch (of abstract type `W`). -/
structure EpochResult (W : Type) where
  train_loss : ℚ
  val_score : ℚ
  val_loss : ℚ
  test_score : ℚ
  test_loss : ℚ
  weights : W

/-- The cross-epoch state of `main`: the best-checkpoint record
(`best_val_loss = float('inf')` is the top element, `best_val_score = 0`,
`best_epoch = 0`, and `best_weights`, a name that is unbound — `none` —
until the first strict improvement) and the `logs` lists. -/
structure RunState (W : Type) where
  best_val_loss : WithTop ℚ
  best_val_score : ℚ
  best_epoch : ℕ
  best_weights : Option W
  logs_train_loss : List ℚ
  logs_val_score : List ℚ
  logs_test_score : List ℚ

/-- The initial sentinels of `main` before the epoch loop. -/
def initRunState : RunState W :=
  { best_val_loss := ⊤, best_val_score := 0, best_epoch := 0, best_weights := none,
    logs_train_loss := [], logs_val_score := [], logs_test_score := [] }

/-- One iteration of `main`'s epoch loop after the trainer/evaluator calls:
append the three log entries, then update the best-checkpoint record
exactly when `val_score > best_val_score` (strict), snapshotting the
epoch's weights (`copy.deepcopy(model.state_dict())`). -/
def epochStep (st : RunState W) (epoch : ℕ) (r : EpochResult W) : RunState W :=
  let st1 := { st with logs_train_loss := st.logs_train_loss ++ [r.train_loss],
                       logs_val_score := st.logs_val_score ++ [r.val_score],
                       logs_test_score := st.logs_test_score ++ [r.test_score] }
  if r.val_score > st1.best_val_score then
    { st1 with best_val_score := r.val_score, best_val_loss := (r.val_loss : WithTop ℚ),
               best_epoch := epoch, best_weights := some r.weights }
  else st1

/-- `main`'s epoch loop, `for epoch in range(args.epochs)`, with the
per-epoch collaborator results given by `results`. -/
def runLoop (epochs : ℕ) (results : ℕ → EpochResult W) : RunState W :=
  (List.range epochs).foldl (fun st e => epochStep st e (results e)) initRunState

/-- The Python error raised at `model.load_state_dict(best_weights)` when
the local name `best_weights` was never bound by the improvement branch. -/
def nameErrorMsg : String := "NameError: name best_weights is not defined"

/-- The files written by the persistence block of `main`, guarded by
`args.save_logs`. -/
def savedFiles (save_logs : Bool) (outdir : String) : List String :=
  if save_logs then [outdir ++ "/logs.csv", outdir ++ "/results.csv", outdir ++ "/model.pth"]
  else []

/-- The terminal phase of `main` after the epoch loop: restore the best
weights (raising a NameError if no epoch ever strictly improved on the
sentinel), run the final test evaluation (abstracted as `finalTest`), and
perform the guarded persistence. The returned value models
`(test_score, test_loss, best_val_loss)` together with the list of files
written; the two wall-time results of the source are omitted. -/
def mainRun (save_logs : Bool) (outdir : String) (epochs : ℕ) (results : ℕ → EpochResult W)
    (finalTest : W → ℚ × ℚ) : Except String ((ℚ × ℚ × WithTop ℚ) × List String) :=
  let st := runLoop epochs results
  match st.best_weights with
  | none => Except.error nameErrorMsg
  | some w =>
    let t := finalTest w
    Except.ok ((t.1, t.2, st.best_val_loss), savedFiles save_logs outdir)

/-- The best-checkpoint record proper (the four fields the improvement
branch of `main` overwrites), as opposed to the logs. -/
def bestOf (st : RunState W) : ℚ × WithTop ℚ × ℕ × Option W :=
  (st.best_val_score, st.best_val_loss, st.best_epoch, st.best_weights)

/-- The slice of the configuration record produced by `load_args` that the
output-directory derivation reads. `batch_norm` is derived as the negation
of `layer_norm`; numeric hyperparameters are rendered with `toString` in
place of Python string formatting. -/
structure Config where
  seed : ℤ
  dataset : String
  outdir : String
  use_edge_attr : Bool
  abs_pe : Option String
  abs_pe_dim : ℤ
  layer_norm : Bool
  se : String
  gnn_type : String
  k_hop : ℤ
  dropout : ℚ
  lr : ℚ
  weight_decay : ℚ
  num_layers : ℤ
  num_heads : ℤ
  dim_hidden : ℤ

/-- `args.batch_norm = not args.layer_norm`. -/
def batch_norm (c : Config) : Bool := !c.layer_norm

/-- The filesystem as the set of existing directories; the source's
`if not os.path.exists(p): os.makedirs(p)` (exceptions swallowed) is
modelled by its successful execution, which is idempotent. -/
def mkdirIfAbsent (fs : List String) (p : String) : List String :=
  if fs.contains p then fs else p :: fs

/-- The trailing hyperparameter path segment of `load_args`: ten fields
prefixed by `se` when `se == "khopgnn"`, nine fields otherwise, joined by
underscores, ending in `BN` or `LN` according to `batch_norm`. -/
def hyperSegment (c : Config) : String :=
  let bn := if batch_norm c then "BN" else "LN"
  (if c.se = "khopgnn" then c.se ++ "_" else "")
    ++ c.gnn_type ++ "_" ++ toString c.k_hop ++ "_" ++ toString c.dropout ++ "_"
    ++ toString c.lr ++ "_" ++ toString c.weight_decay ++ "_" ++ toString c.num_layers ++ "_"
    ++ toString c.num_heads ++ "_" ++ toString c.dim_hidden ++ "_" ++ bn

/-- The output-directory logic of `load_args`: when `args.outdir` is the
empty string, `save_logs` stays `False` and the path is untouched;
otherwise the nested path is built segment by segment, creating each
directory when absent, and `save_logs` is `True`. Returns
`((save_logs, args.outdir), filesystem)`. -/
def load_args_outdir (c : Config) (fs0 : List String) : (Bool × String) × List String :=
  if c.outdir = "" then ((false, c.outdir), fs0)
  else
    let outdir1 := c.outdir
    let fs1 := mkdirIfAbsent fs0 outdir1
    let outdir2 := outdir1 ++ "/" ++ c.dataset
    let fs2 := mkdirIfAbsent fs1 outdir2
    let outdir3 := outdir2 ++ "/seed" ++ toString c.seed
    let fs3 := mkdirIfAbsent fs2 outdir3
    let outdir4 := if c.use_edge_attr then outdir3 ++ "/edge_attr" else outdir3
    let fs4 := if c.use_edge_attr then mkdirIfAbsent fs3 outdir4 else fs3
    let pedir := match c.abs_pe with
      | none => "None"
      | some pe => pe ++ "_" ++ toString c.abs_pe_dim
    let outdir5 := outdir4 ++ "/" ++ pedir
    let fs5 := mkdirIfAbsent fs4 outdir5
    let outdir6 := outdir5 ++ "/" ++ hyperSegment c
    let fs6 := mkdirIfAbsent fs5 outdir6
    ((true, outdir6), fs6)

/-- The five scalar results `main` returns to the `__main__` block:
`test_score, test_loss, best_val_loss, total_time_taken, avg_time_epoch`. -/
structure RunMetrics where
  test_score : ℚ
  test_loss : ℚ
  val : ℚ
  total_time : ℚ
  avg_time : ℚ

/-- The collection loop of the `__main__` block: `for run_id in range(10)`,
appending each run's five scalars to the five lists
`(test_scores, test_losses, vals, total_time_list, avg_time_list)`.
The run controller `main` is the opaque collaborator `runResult`. -/
def multiRunLoop (runResult : ℕ → RunMetrics) :
    List ℚ × List ℚ × List ℚ × List ℚ × List ℚ :=
  (List.range 10).foldl
    (fun acc i =>
      let r := runResult i
      (acc.1 ++ [r.test_score], acc.2.1 ++ [r.test_loss], acc.2.2.1 ++ [r.val],
       acc.2.2.2.1 ++ [r.total_time], acc.2.2.2.2 ++ [r.avg_time]))
    ([], [], [], [], [])

/-- `np.mean` of a list of rationals. -/
def npMean (xs : List ℚ) : ℚ := xs.sum / (xs.length : ℚ)

/-- The square of `np.std` (the population variance). `np.std` itself is
the square root of this value, hence is determined by it; the square is
recorded to stay inside the rationals. -/
def npStdSq (xs : List ℚ) : ℚ := npMean (xs.map (fun v => (v - npMean xs) ^ 2))

/-- The eight statistics the `__main__` block passes to `results_to_file`:
mean and standard deviation (recorded as its square) of the test scores,
the test losses, the total times and the average epoch times — and of
nothing else. -/
structure Summary where
  test_score_mean : ℚ
  test_score_std_sq : ℚ
  test_loss_mean : ℚ
  test_loss_std_sq : ℚ
  total_time_mean : ℚ
  total_time_std_sq : ℚ
  avg_time_mean : ℚ
  avg_time_std_sq : ℚ

/-- The final summary computed by the `__main__` block from the collected
lists: `results_to_file(args, np.mean(test_scores), np.std(test_scores),
np.mean(test_losses), np.std(test_losses), np.mean(total_time_list),
np.std(total_time_list), np.mean(avg_time_list), np.std(avg_time_list))`.
The list `vals` of best validation losses is collected but never passed. -/
def finalSummary (runResult : ℕ → RunMetrics) : Summary :=
  let c := multiRunLoop runResult
  { test_score_mean := npMean c.1, test_score_std_sq := npStdSq c.1,
    test_loss_mean := npMean c.2.1, test_loss_std_sq := npStdSq c.2.1,
    total_time_mean := npMean c.2.2.2.1, total_time_std_sq := npStdSq c.2.2.2.1,
    avg_time_mean := npMean c.2.2.2.2, avg_time_std_sq := npStdSq c.2.2.2.2 }

/-- The loop of `eval_epoch` never writes `running_loss`, `y_pred` or
`y_true`, and performs exactly one `batch.cuda()` transfer per batch. -/
theorem evalFold_proj (model : EvalBatch α → List (List ℚ)) (l : List (EvalBatch α)) :
    ∀ st : EvalState,
      (l.foldl (evalStep model) st).running_loss = st.running_loss ∧
      (l.foldl (evalStep model) st).y_pred = st.y_pred ∧
      (l.foldl (evalStep model) st).y_true = st.y_true ∧
      (l.foldl (evalStep model) st).cudaCalls = st.cudaCalls + l.length := by
  induction l with
  | nil => intro st; simp
  | cons b bs ih =>
    intro st
    have h := ih (evalStep model st b)
    simp only [List.foldl_cons, List.length_cons]
    refine ⟨h.1.trans rfl, (h.2.1).trans rfl, (h.2.2.1).trans rfl, (h.2.2.2).trans ?_⟩
    simp only [evalStep]
    omega

/-- `eval_epoch` always raises: the concatenation of the never-appended
`y_pred` list fails on every loader, every model and either value of
`use_cuda`. -/
theorem eval_epoch_always_raises (model : EvalBatch α → List (List ℚ))
    (loader : List (EvalBatch α)) (u : Bool) :
    eval_epoch model loader u
      = Except.error "torch.cat expected a non-empty list of Tensors" := by
  have hp : (evalLoop model loader).y_pred = [] :=
    (evalFold_proj model loader _).2.1
  simp only [eval_epoch, evalLoop] at *
  rw [hp]
  rfl

/-- A concrete one-batch validation split: three samples with ground-truth
labels 0, 1, 1. -/
def evalBatchC1 : EvalBatch ℕ := { x := 0, y := [0, 1, 1] }

/-- A model with fixed logits: its row-wise argmax predicts classes
0, 1, 0, matching two of the three labels of `evalBatchC1`. -/
def modelC1 : EvalBatch ℕ → List (List ℚ) := fun _ => [[1, 0], [0, 1], [1, 0]]

/-- C1: `eval_epoch` does accumulate the exact-match count of the row-wise
argmax against the ground-truth labels (here 2 of 3), but it never returns
the accuracy: after the loop it concatenates the `y_pred` list it never
appended to, which raises, so the `return score, epoch_loss` line is
unreachable on every input. -/
theorem C1_eval_epoch_raises_before_returning_accuracy :
    (evalLoop modelC1 [evalBatchC1]).correct = 2 ∧
    eval_epoch modelC1 [evalBatchC1] false
      = Except.error "torch.cat expected a non-empty list of Tensors" := by
  exact ⟨by decide, by rfl⟩

/-- A concrete non-empty split for C8: one sample with label 1 and a model
predicting class 0. -/
def evalBatchC8 : EvalBatch ℕ := { x := 0, y := [1] }

/-- Fixed logits for the C8 counterexample. -/
def modelC8 : EvalBatch ℕ → List (List ℚ) := fun _ => [[5, 1]]

/-- C8 counterexample: on a concrete non-empty data split, `eval_epoch`
returns no loss value at all — it raises at the empty-list concatenation —
so the returned loss is not the claimed 0.0. -/
theorem C8_counterexample_no_loss_is_returned :
    eval_epoch modelC8 [evalBatchC8] false
      = Except.error "torch.cat expected a non-empty list of Tensors" := by
  rfl

/-- C8 (amended): the running loss of `eval_epoch` is indeed never
accumulated — it stays at its initial 0 through the whole loop, so the
`epoch_loss = running_loss / n_sample` expression would evaluate to 0 —
but the function raises at the empty-list concatenation before reaching
that expression, so no loss value is ever returned. -/
theorem C8_running_loss_stays_zero (model : EvalBatch α → List (List ℚ))
    (loader : List (EvalBatch α)) (u : Bool) :
    (evalLoop model loader).running_loss = 0 ∧
    eval_epoch model loader u
      = Except.error "torch.cat expected a non-empty list of Tensors" :=
  ⟨(evalFold_proj model loader _).1, eval_epoch_always_raises model loader u⟩

/-- Projections of one training step: the cuda counter grows by one exactly
when `use_cuda`, and the learning-rate trace is extended by the rate in
effect at this step's `optimizer.step()` — the warmup ramp value when
`epoch < warmup`, the incoming rate otherwise. -/
theorem trainStep_proj (baseLr : ℚ) (warmup nb epoch : ℕ) (u : Bool) (lossOf : ℕ → ℚ)
    (st : TrainState) (p : ℕ × TrainBatch α) :
    (trainStep baseLr warmup nb epoch u lossOf st p).cudaCalls
        = st.cudaCalls + (if u then 1 else 0) ∧
    (trainStep baseLr warmup nb epoch u lossOf st p).lrTrace
        = st.lrTrace ++ [if epoch < warmup
            then warmup_lr_scheduler baseLr warmup nb (epoch * nb + p.1) else st.lr] ∧
    (trainStep baseLr warmup nb epoch u lossOf st p).lr
        = (if epoch < warmup
            then warmup_lr_scheduler baseLr warmup nb (epoch * nb + p.1) else st.lr) := by
  simp only [trainStep]
  by_cases he : epoch < warmup <;> by_cases hu : u <;>
    simp [he, hu]

/-- The training loop performs one `data.cuda()` transfer per batch when
`use_cuda` and none otherwise, for any enumeration offset. -/
theorem trainFold_cudaCalls (baseLr : ℚ) (warmup nb epoch : ℕ) (u : Bool) (lossOf : ℕ → ℚ) :
    ∀ (l : List (TrainBatch α)) (j : ℕ) (st : TrainState),
      ((l.enumFrom j).foldl (trainStep baseLr warmup nb epoch u lossOf) st).cudaCalls
        = st.cudaCalls + (if u then l.length else 0) := by
  intro l
  induction l with
  | nil => intro j st; simp [List.enumFrom]
  | cons b bs ih =>
    intro j st
    have hs := trainStep_proj baseLr warmup nb epoch u lossOf st (j, b)
    simp only [List.enumFrom, List.foldl_cons]
    rw [ih (j + 1) _, hs.1]
    by_cases hu : u <;> simp [hu, List.length_cons] <;> omega

/-- During a warmup epoch, the learning rates in effect at the successive
`optimizer.step()` calls are exactly the ramp values at iterations
`epoch * nb + j, epoch * nb + (j + 1), ...`, for any enumeration offset. -/
theorem trainFold_lrTrace (baseLr : ℚ) (warmup nb epoch : ℕ) (u : Bool) (lossOf : ℕ → ℚ)
    (he : epoch < warmup) :
    ∀ (l : List (TrainBatch α)) (j : ℕ) (st : TrainState),
      ((l.enumFrom j).foldl (trainStep baseLr warmup nb epoch u lossOf) st).lrTrace
        = st.lrTrace ++ (List.range l.length).map
            (fun k => warmup_lr_scheduler baseLr warmup nb (epoch * nb + (j + k))) := by
  intro l
  induction l with
  | nil => intro j st; simp [List.enumFrom]
  | cons b bs ih =>
    intro j st
    have hs := trainStep_proj baseLr warmup nb epoch u lossOf st (j, b)
    simp only [List.enumFrom, List.foldl_cons, List.length_cons]
    rw [ih (j + 1) _, hs.2.1, if_pos he]
    rw [List.range_succ_eq_map, List.map_cons, List.map_map]
    have harg : ((fun k => warmup_lr_scheduler baseLr warmup nb (epoch * nb + (j + 1 + k)))
        : ℕ → ℚ)
        = (fun k => warmup_lr_scheduler baseLr warmup nb (epoch * nb + (j + k))) ∘ Nat.succ := by
      funext k
      simp only [Function.comp]
      have : j + 1 + k = j + Nat.succ k := by omega
      rw [this]
    rw [harg]
    simp [List.append_assoc]

/-- C3: for every epoch strictly inside the warmup window, the learning
rate `train_epoch` installs before each batch equals
`iteration * (base_lr / (warmup * batches_per_epoch))` with
`iteration = epoch * batches_per_epoch + i`; the ramp value is strictly
increasing in the iteration number, it equals `base_lr` exactly at
iteration `warmup * batches_per_epoch`, and the last value used inside the
warmup window falls short of `base_lr` by exactly one ramp step. -/
theorem C3_warmup_lr_linear_ramp (baseLr : ℚ) (warmup : ℕ) (lossOf : ℕ → ℚ)
    (batches : List (TrainBatch α)) (epoch : ℕ) (u : Bool) (lr0 : ℚ)
    (hw : 0 < warmup) (hb : 0 < batches.length) (hlr : 0 < baseLr) (he : epoch < warmup) :
    ((train_epoch baseLr warmup lossOf batches epoch u lr0).1).lrTrace
        = (List.range batches.length).map
            (fun i => ((epoch * batches.length + i : ℕ) : ℚ)
              * (baseLr / ((warmup : ℚ) * (batches.length : ℚ)))) ∧
    (∀ s t : ℕ, s < t →
      warmup_lr_scheduler baseLr warmup batches.length s
        < warmup_lr_scheduler baseLr warmup batches.length t) ∧
    warmup_lr_scheduler baseLr warmup batches.length (warmup * batches.length) = baseLr ∧
    baseLr - warmup_lr_scheduler baseLr warmup batches.length (warmup * batches.length - 1)
        = lr_steps baseLr warmup batches.length := by
  have hwq : (0 : ℚ) < (warmup : ℚ) := by exact_mod_cast hw
  have hbq : (0 : ℚ) < (batches.length : ℚ) := by exact_mod_cast hb
  have hstep : (0 : ℚ) < lr_steps baseLr warmup batches.length := by
    unfold lr_steps
    positivity
  refine ⟨?_, ?_, ?_, ?_⟩
  · have h := trainFold_lrTrace baseLr warmup batches.length epoch u lossOf he batches 0
      { lr := lr0, running_loss := 0, lrTrace := [], cudaCalls := 0 }
    simp only [train_epoch]
    rw [show batches.enum = batches.enumFrom 0 from rfl, h]
    simp only [List.nil_append, Nat.zero_add]
    rfl
  · intro s t hst
    unfold warmup_lr_scheduler
    have hc : (s : ℚ) < (t : ℚ) := by exact_mod_cast hst
    exact mul_lt_mul_of_pos_right hc hstep
  · unfold warmup_lr_scheduler lr_steps
    have hne : (warmup : ℚ) * (batches.length : ℚ) ≠ 0 := by positivity
    push_cast
    field_simp
  · have hge : 1 ≤ warmup * batches.length := Nat.one_le_iff_ne_zero.mpr (by positivity)
    unfold warmup_lr_scheduler lr_steps
    have hcast : ((warmup * batches.length - 1 : ℕ) : ℚ)
        = (warmup : ℚ) * (batches.length : ℚ) - 1 := by
      push_cast [Nat.cast_sub hge]
      ring
    rw [hcast]
    have hne : (warmup : ℚ) * (batches.length : ℚ) ≠ 0 := by positivity
    field_simp
    ring

/-- Concrete two-batch training loader for the C3 witness. -/
def trainBatchesC3 : List (TrainBatch ℕ) := [{ x := 0, ySize := 1 }, { x := 0, ySize := 1 }]

/-- Witness for C3 at `base_lr = 3`, `warmup = 2`, two batches per epoch,
`epoch = 1`: the installed rates are `2 * (3/4) = 3/2` and `3 * (3/4) = 9/4`,
the ramp is strictly increasing from iteration 1 to 2, and it reaches
`base_lr = 3` at iteration `warmup * batches = 4`. -/
theorem C3_warmup_lr_linear_ramp_witness :
    ((train_epoch (3 : ℚ) 2 (fun _ => (0 : ℚ)) trainBatchesC3 1 false 0).1).lrTrace
        = [3/2, 9/4] ∧
    warmup_lr_scheduler 3 2 2 1 < warmup_lr_scheduler 3 2 2 2 ∧
    warmup_lr_scheduler 3 2 2 (2 * 2) = 3 := by
  have h := C3_warmup_lr_linear_ramp (3 : ℚ) 2 (fun _ => (0 : ℚ)) trainBatchesC3 1 false 0
    (by decide) (by decide) (by decide) (by decide)
  refine ⟨?_, h.2.1 1 2 (by decide), h.2.2.1⟩
  rw [h.1]
  show List.map _ (List.range 2) = _
  simp [List.range_succ, trainBatchesC3]
  norm_num

/-- C9: the `use_cuda` argument of `eval_epoch` is dead — any two calls
differing only in it are equal — while every batch is unconditionally
transferred to CUDA (one transfer per batch, whatever `use_cuda` says).
By contrast, `train_epoch` transfers batches exactly when its `use_cuda`
argument is true, and not at all on a CPU-only configuration. -/
theorem C9_use_cuda_dead_in_eval_epoch (model : EvalBatch α → List (List ℚ))
    (loader : List (EvalBatch α)) (u v : Bool)
    (baseLr : ℚ) (warmup : ℕ) (lossOf : ℕ → ℚ) (batches : List (TrainBatch α))
    (epoch : ℕ) (lr0 : ℚ) :
    eval_epoch model loader u = eval_epoch model loader v ∧
    (evalLoop model loader).cudaCalls = loader.length ∧
    ((train_epoch baseLr warmup lossOf batches epoch false lr0).1).cudaCalls = 0 ∧
    ((train_epoch baseLr warmup lossOf batches epoch true lr0).1).cudaCalls
        = batches.length := by
  refine ⟨rfl, ?_, ?_, ?_⟩
  · have h := (evalFold_proj model loader
      { running_loss := 0, y_pred := [], y_true := [], correct := 0, cudaCalls := 0 }).2.2.2
    simpa [evalLoop] using h
  · have h := trainFold_cudaCalls baseLr warmup batches.length epoch false lossOf batches 0
      { lr := lr0, running_loss := 0, lrTrace := [], cudaCalls := 0 }
    simpa [train_epoch] using h
  · have h := trainFold_cudaCalls baseLr warmup batches.length epoch true lossOf batches 0
      { lr := lr0, running_loss := 0, lrTrace := [], cudaCalls := 0 }
    simpa [train_epoch] using h

/-- C2: one iteration of the epoch loop changes the best-checkpoint record
(best validation score, best validation loss, best epoch, parameter
snapshot) if and only if the epoch's validation score is strictly greater
than the best score so far; a tie leaves the record unchanged; and on a
strict improvement the record becomes exactly the current epoch's data. -/
theorem C2_best_record_updated_iff_strictly_better (st : RunState W) (epoch : ℕ)
    (r : EpochResult W) :
    (bestOf (epochStep st epoch r) ≠ bestOf st ↔ st.best_val_score < r.val_score) ∧
    (r.val_score = st.best_val_score → bestOf (epochStep st epoch r) = bestOf st) ∧
    (st.best_val_score < r.val_score →
      bestOf (epochStep st epoch r)
        = (r.val_score, (r.val_loss : WithTop ℚ), epoch, some r.weights)) := by
  by_cases h : st.best_val_score < r.val_score
  · have hstep : bestOf (epochStep st epoch r)
        = (r.val_score, (r.val_loss : WithTop ℚ), epoch, some r.weights) := by
      simp only [epochStep, bestOf]
      rw [if_pos h]
    refine ⟨?_, ?_, fun _ => hstep⟩
    · rw [hstep]
      simp only [bestOf, ne_eq, Prod.mk.injEq, not_and]
      constructor
      · intro _
        exact h
      · intro _ hc
        exact absurd hc.symm (ne_of_lt h)
    · intro ht
      exact absurd (ht ▸ h) (lt_irrefl _)
  · have hstep : bestOf (epochStep st epoch r) = bestOf st := by
      simp only [epochStep, bestOf]
      rw [if_neg h]
    refine ⟨?_, fun _ => hstep, fun hc => absurd hc h⟩
    constructor
    · intro hne
      exact absurd hstep hne
    · intro hc
      exact absurd hc h

/-- Epoch results for the C2 witness: validation score 1 (strictly above
the sentinel 0), validation loss 2, weights snapshot 7. -/
def epochResC2 : EpochResult ℕ :=
  { train_loss := 0, val_score := 1, val_loss := 2, test_score := 0, test_loss := 0, weights := 7 }

/-- Witness for C2: from the initial sentinel state, an epoch with
validation score 1 > 0 overwrites the whole best-checkpoint record. -/
theorem C2_best_record_updated_iff_strictly_better_witness :
    bestOf (epochStep (initRunState (W := ℕ)) 5 epochResC2)
      = (1, (2 : WithTop ℚ), 5, some 7) :=
  (C2_best_record_updated_iff_strictly_better (initRunState (W := ℕ)) 5 epochResC2).2.2
    (by decide)

/-- An all-sentinel epoch result (validation score 0, never an improvement). -/
def epochResZero : EpochResult ℕ :=
  { train_loss := 0, val_score := 0, val_loss := 0, test_score := 0, test_loss := 0, weights := 0 }

/-- C5 counterexample: running the controller with `epochs = 0` does not
complete its terminal steps — the restore of `best_weights` raises an
unbound-name error, because the snapshot variable is only bound inside the
strict-improvement branch of the loop that never ran. -/
theorem C5_counterexample_epochs_zero_raises :
    mainRun false "" 0 (fun _ => epochResZero) (fun _ => ((0 : ℚ), (0 : ℚ)))
      = Except.error nameErrorMsg := rfl

/-- C5 (amended): with `epochs = 0` the epoch loop indeed produces no log
entries and leaves the best-checkpoint record at its initial sentinel, but
the controller does **not** complete its terminal steps: the restore of the
never-bound `best_weights` fails with an unbound-name error. -/
theorem C5_epochs_zero_sentinel_state_but_restore_fails (results : ℕ → EpochResult W)
    (sl : Bool) (od : String) (ft : W → ℚ × ℚ) :
    runLoop 0 results = initRunState ∧
    (runLoop 0 results).logs_train_loss = [] ∧
    (runLoop 0 results).logs_val_score = [] ∧
    (runLoop 0 results).logs_test_score = [] ∧
    mainRun sl od 0 results ft = Except.error nameErrorMsg :=
  ⟨rfl, rfl, rfl, rfl, rfl⟩

/-- When the epoch's validation score does not strictly beat the best so
far, the else-branch of the update leaves the best score and the snapshot
untouched. -/
theorem epochStep_not_improved (st : RunState W) (e : ℕ) (r : EpochResult W)
    (h : ¬ st.best_val_score < r.val_score) :
    (epochStep st e r).best_val_score = st.best_val_score ∧
    (epochStep st e r).best_weights = st.best_weights := by
  unfold epochStep
  dsimp only
  split
  · rename_i hc
    exact absurd hc h
  · exact ⟨rfl, rfl⟩

/-- Unrolling the last epoch of the loop. -/
theorem runLoop_succ (results : ℕ → EpochResult W) (n : ℕ) :
    runLoop (n + 1) results = epochStep (runLoop n results) n (results n) := by
  unfold runLoop
  rw [List.range_succ, List.foldl_append, List.foldl_cons, List.foldl_nil]

/-- If no epoch's validation score exceeds the sentinel 0, the loop never
binds the parameter snapshot and the best score stays 0. -/
theorem runLoop_all_zero (results : ℕ → EpochResult W) :
    ∀ epochs : ℕ, (∀ e, e < epochs → (results e).val_score = 0) →
      (runLoop epochs results).best_val_score = 0 ∧
      (runLoop epochs results).best_weights = none := by
  intro epochs
  induction epochs with
  | zero => intro _; exact ⟨rfl, rfl⟩
  | succ n ih =>
    intro h
    have hn := ih (fun e he => h e (Nat.lt_succ_of_lt he))
    have hv : (results n).val_score = 0 := h n (Nat.lt_succ_self n)
    have hni := epochStep_not_improved (runLoop n results) n (results n)
      (by rw [hn.1, hv]; exact lt_irrefl 0)
    rw [runLoop_succ]
    exact ⟨hni.1.trans hn.1, hni.2.trans hn.2⟩

/-- C10: the terminal restore of the controller requires some epoch to have
beaten the sentinel validation score 0 strictly: if every epoch's
validation score is 0 — in particular if the loop runs zero times — the
snapshot name is never bound and the restore step fails with an
unbound-name error instead of completing. -/
theorem C10_restore_fails_without_strict_improvement (epochs : ℕ)
    (results : ℕ → EpochResult W) (sl : Bool) (od : String) (ft : W → ℚ × ℚ)
    (h : ∀ e, e < epochs → (results e).val_score = 0) :
    mainRun sl od epochs results ft = Except.error nameErrorMsg := by
  have hb := (runLoop_all_zero results epochs h).2
  simp only [mainRun, hb]

/-- Witness for C10: two epochs, every validation score 0, the controller
raises the unbound-name error. -/
theorem C10_restore_fails_without_strict_improvement_witness :
    mainRun true "outdir" 2 (fun _ => epochResZero) (fun _ => ((0 : ℚ), (0 : ℚ)))
      = Except.error nameErrorMsg :=
  C10_restore_fails_without_strict_improvement 2 (fun _ => epochResZero) true "outdir"
    (fun _ => ((0 : ℚ), (0 : ℚ))) (fun _ _ => rfl)

/-- C7: when no output directory is configured, `load_args` leaves
`save_logs` false, and a run of the controller with `save_logs` false
writes no per-epoch log file, no summary-metrics file and no checkpoint
artifact, while still completing and returning its metrics (given that the
terminal restore has a bound snapshot to restore). -/
theorem C7_no_persistence_when_logging_disabled (c : Config) (fs : List String)
    (epochs : ℕ) (results : ℕ → EpochResult W) (ft : W → ℚ × ℚ) (od : String) (w : W)
    (hc : c.outdir = "") (hw : (runLoop epochs results).best_weights = some w) :
    ((load_args_outdir c fs).1).1 = false ∧
    mainRun false od epochs results ft
      = Except.ok (((ft w).1, (ft w).2, (runLoop epochs results).best_val_loss), []) := by
  constructor
  · simp [load_args_outdir, hc]
  · simp only [mainRun, hw, savedFiles, if_neg Bool.false_ne_true]

/-- A configuration with no output directory configured (`--outdir` left at
its empty default), the other fields at the parser defaults. -/
def configC7 : Config :=
  { seed := 0, dataset := "MUTAG", outdir := "", use_edge_attr := false, abs_pe := none,
    abs_pe_dim := 20, layer_norm := false, se := "gnn", gnn_type := "graph", k_hop := 2,
    dropout := 1/10, lr := 3/10000, weight_decay := 1/10000, num_layers := 3,
    num_heads := 8, dim_hidden := 128 }

/-- Epoch results for the C7 witness: validation score 1 strictly improves
on the sentinel, so the terminal restore succeeds. -/
def epochResC7 : EpochResult ℕ :=
  { train_loss := 0, val_score := 1, val_loss := 2, test_score := 0, test_loss := 0, weights := 42 }

/-- Witness for C7: with the empty output directory, `save_logs` is false
and a one-epoch run writes no files yet returns its metrics. -/
theorem C7_no_persistence_when_logging_disabled_witness :
    ((load_args_outdir configC7 []).1).1 = false ∧
    mainRun false "x" 1 (fun _ => epochResC7) (fun _ => ((5 : ℚ), (6 : ℚ)))
      = Except.ok ((5, 6, (2 : WithTop ℚ)), []) := by
  have h := C7_no_persistence_when_logging_disabled configC7 [] 1 (fun _ => epochResC7)
    (fun _ => ((5 : ℚ), (6 : ℚ))) "x" 42 rfl (by decide)
  exact ⟨h.1, h.2.trans (by rfl)⟩

/-- C6: the output path computed by the config loader is a deterministic
pure function of the configuration: it does not depend on the state of the
filesystem (which directories already exist), so two invocations with
identical argument values yield identical `(save_logs, outdir)` results. -/
theorem C6_outdir_deterministic (c : Config) (fs fs' : List String) :
    (load_args_outdir c fs).1 = (load_args_outdir c fs').1 := by
  by_cases h : c.outdir = "" <;> simp [load_args_outdir, h]

/-- The collection loop of the `__main__` block gathers, in order, the ten
runs' test scores, test losses, best validation losses, total times and
average epoch times. -/
theorem multiRunLoop_eq (r : ℕ → RunMetrics) :
    multiRunLoop r = ((List.range 10).map (fun i => (r i).test_score),
                      (List.range 10).map (fun i => (r i).test_loss),
                      (List.range 10).map (fun i => (r i).val),
                      (List.range 10).map (fun i => (r i).total_time),
                      (List.range 10).map (fun i => (r i).avg_time)) := rfl

/-- C4 (amended): the aggregator invokes the run controller exactly 10
times, collecting five scalar results per run (all five collected lists
have length 10), but the final summary contains mean and standard
deviation of only four of the five metrics: any two metric streams that
agree on test score, test loss, total time and average epoch time produce
the same summary, whatever their best validation losses. -/
theorem C4_ten_runs_but_val_losses_not_summarised (r r' : ℕ → RunMetrics)
    (h : ∀ i, i < 10 →
      (r i).test_score = (r' i).test_score ∧ (r i).test_loss = (r' i).test_loss ∧
      (r i).total_time = (r' i).total_time ∧ (r i).avg_time = (r' i).avg_time) :
    (multiRunLoop r).1.length = 10 ∧ (multiRunLoop r).2.1.length = 10 ∧
    (multiRunLoop r).2.2.1.length = 10 ∧ (multiRunLoop r).2.2.2.1.length = 10 ∧
    (multiRunLoop r).2.2.2.2.length = 10 ∧
    finalSummary r = finalSummary r' := by
  have e1 : (List.range 10).map (fun i => (r i).test_score)
      = (List.range 10).map (fun i => (r' i).test_score) :=
    List.map_congr_left (fun a ha => (h a (List.mem_range.mp ha)).1)
  have e2 : (List.range 10).map (fun i => (r i).test_loss)
      = (List.range 10).map (fun i => (r' i).test_loss) :=
    List.map_congr_left (fun a ha => (h a (List.mem_range.mp ha)).2.1)
  have e3 : (List.range 10).map (fun i => (r i).total_time)
      = (List.range 10).map (fun i => (r' i).total_time) :=
    List.map_congr_left (fun a ha => (h a (List.mem_range.mp ha)).2.2.1)
  have e4 : (List.range 10).map (fun i => (r i).avg_time)
      = (List.range 10).map (fun i => (r' i).avg_time) :=
    List.map_congr_left (fun a ha => (h a (List.mem_range.mp ha)).2.2.2)
  refine ⟨?_, ?_, ?_, ?_, ?_, ?_⟩
  · simp [multiRunLoop_eq]
  · simp [multiRunLoop_eq]
  · simp [multiRunLoop_eq]
  · simp [multiRunLoop_eq]
  · simp [multiRunLoop_eq]
  · simp only [finalSummary, multiRunLoop_eq]
    rw [e1, e2, e3, e4]

/-- Per-run metrics for the C4 theorems; `runMetricsB` differs from
`runMetricsA` only in the best validation loss. -/
def runMetricsA : RunMetrics :=
  { test_score := 1, test_loss := 2, val := 3, total_time := 4, avg_time := 5 }

/-- Same as `runMetricsA` except for the best validation loss. -/
def runMetricsB : RunMetrics :=
  { test_score := 1, test_loss := 2, val := 30, total_time := 4, avg_time := 5 }

/-- C4 counterexample: two ten-run metric streams whose best validation
losses differ in every run produce identical final summaries — so the
summary written at the end contains no statistic (neither mean nor
standard deviation) of the best validation losses, contradicting the
claimed five aggregated metrics. -/
theorem C4_counterexample_val_loss_dropped_from_summary :
    finalSummary (fun _ => runMetricsA) = finalSummary (fun _ => runMetricsB) ∧
    (multiRunLoop (fun _ => runMetricsA)).2.2.1
      ≠ (multiRunLoop (fun _ => runMetricsB)).2.2.1 := by
  exact ⟨rfl, by decide⟩

/-- Witness for C4 (amended) at the concrete metric streams `runMetricsA`
and `runMetricsB`. -/
theorem C4_ten_runs_but_val_losses_not_summarised_witness :
    (multiRunLoop (fun _ => runMetricsA)).1.length = 10 ∧
    (multiRunLoop (fun _ => runMetricsA)).2.1.length = 10 ∧
    (multiRunLoop (fun _ => runMetricsA)).2.2.1.length = 10 ∧
    (multiRunLoop (fun _ => runMetricsA)).2.2.2.1.length = 10 ∧
    (multiRunLoop (fun _ => runMetricsA)).2.2.2.2.length = 10 ∧
    finalSummary (fun _ => runMetricsA) = finalSummary (fun _ => runMetricsB) :=
  C4_ten_runs_but_val_losses_not_summarised (fun _ => runMetricsA) (fun _ => runMetricsB)
    (fun _ _ => ⟨rfl, rfl, rfl, rfl⟩)
